import Mathlib

/-!
Shallow embedding of the photo-strip compositing core of the photobooth
application, together with theorems checking the natural-language
specification against it.

Embedded source units:
* `src/types/filters` — filter configuration tables and `AppliedFilters`;
* `FilterPanel.tsx` — `handleBasicFilterToggle`, `handleAdvancedFilterChange`,
  and the slider display value `appliedFilters.advanced[name] || defaultValue`;
* `PhotoCanvas.tsx` — `getImageStyle` (preview CSS filter string) and
  `drawStripToCanvas` (export render onto the hidden canvas);
* `imageProcessor.ts` — the filter string of `ImageProcessor.applyFilters`
  and the sticker sort of `ImageProcessor.addStickers`.

JavaScript numbers are modelled by `ℚ` (all arithmetic in these functions is
exact on the inputs considered), JS strings by `String`, and the 2D canvas
context by an explicit state record with a save/restore stack and a trace of
draw commands standing for the produced pixels.
-/

/-- Entry of the `BASIC_FILTERS` table (src/types/filters). -/
structure BasicFilter where
  name : String
  value : String
  label : String
deriving DecidableEq, Repr

/-- Entry of the `ADVANCED_FILTERS` table (src/types/filters). -/
structure AdvancedFilter where
  name : String
  min : ℚ
  max : ℚ
  step : ℚ
  defaultValue : ℚ
  unit : String
  label : String
deriving DecidableEq, Repr

/-- `AppliedFilters`: toggled basic filter names in toggle order, plus the
`Record<string, number>` of advanced values as an insertion-ordered
association list (JS objects preserve string-key insertion order). -/
structure AppliedFilters where
  basic : List String
  advanced : List (String × ℚ)
deriving DecidableEq, Repr

/-- The `BASIC_FILTERS` constant from src/types/filters. -/
def BASIC_FILTERS : List BasicFilter :=
  [⟨"none", "none", "Original"⟩,
   ⟨"grayscale", "grayscale(100%)", "Grayscale"⟩,
   ⟨"sepia", "sepia(100%)", "Sepia"⟩,
   ⟨"invert", "invert(100%)", "Invert"⟩,
   ⟨"blur", "blur(2px)", "Blur"⟩,
   ⟨"brightness", "brightness(150%)", "Bright"⟩,
   ⟨"contrast", "contrast(150%)", "High Contrast"⟩,
   ⟨"saturate", "saturate(200%)", "Vibrant"⟩,
   ⟨"hue-rotate", "hue-rotate(90deg)", "Color Shift"⟩]

/-- The `ADVANCED_FILTERS` constant from src/types/filters. -/
def ADVANCED_FILTERS : List AdvancedFilter :=
  [⟨"brightness", 0, 300, 1, 100, "%", "Brightness"⟩,
   ⟨"contrast", 0, 300, 1, 100, "%", "Contrast"⟩,
   ⟨"saturate", 0, 300, 1, 100, "%", "Saturation"⟩,
   ⟨"blur", 0, 10, 1/10, 0, "px", "Blur"⟩,
   ⟨"hue-rotate", 0, 360, 1, 0, "deg", "Hue"⟩,
   ⟨"opacity", 0, 100, 1, 100, "%", "Opacity"⟩]

/-- One appended piece of a CSS `filter` string: either a fixed literal such
as `grayscale(100%)`, or a parameterized call `fn(value unit)` whose numeric
argument comes from an advanced filter value.  A built filter string is the
list of appended pieces; the pieces determine the string and conversely. -/
inductive FilterChunk where
  | lit (text : String)
  | param (fn : String) (value : ℚ) (unit : String)
deriving DecidableEq, Repr

/-- The `switch (basicFilter)` of `getImageStyle` in PhotoCanvas.tsx: the CSS
text appended for one toggled basic filter name (`default:` appends none). -/
def basicFilterCss : String → Option String
  | "grayscale" => some "grayscale(100%)"
  | "sepia" => some "sepia(100%)"
  | "blur" => some "blur(2px)"
  | "brightness" => some "brightness(1.2)"
  | "contrast" => some "contrast(1.2)"
  | "saturate" => some "saturate(1.5)"
  | "hue-rotate" => some "hue-rotate(90deg)"
  | "invert" => some "invert(100%)"
  | _ => none

/-- The `switch (key)` of `getImageStyle` over `appliedFilters.advanced`
entries: only `brightness`, `contrast`, `saturate` and `blur` contribute a
chunk (`default:` appends none — `hue-rotate` and `opacity` are ignored). -/
def advancedPreviewChunk : String × ℚ → Option FilterChunk
  | ("brightness", v) => some (.param "brightness" v "%")
  | ("contrast", v) => some (.param "contrast" v "%")
  | ("saturate", v) => some (.param "saturate" v "%")
  | ("blur", v) => some (.param "blur" v "px")
  | _ => none

/-- `getImageStyle` from PhotoCanvas.tsx: the preview CSS filter string,
built by appending a chunk per toggled basic filter in array order and then a
chunk per advanced entry in insertion order. -/
def getImageStyle (af : AppliedFilters) : List FilterChunk :=
  af.basic.filterMap (fun n => (basicFilterCss n).map .lit)
    ++ af.advanced.filterMap advancedPreviewChunk

/-- The filter string built by `ImageProcessor.applyFilters`
(imageProcessor.ts): basic names are looked up in `BASIC_FILTERS` (appending
the table's `value` text), advanced entries are looked up in
`ADVANCED_FILTERS` and appended as `name(value unit)`. -/
def applyFiltersChunks (filters : AppliedFilters) : List FilterChunk :=
  filters.basic.filterMap
      (fun n => (BASIC_FILTERS.find? (fun f => f.name == n)).map (fun f => .lit f.value))
    ++ filters.advanced.filterMap
      (fun p => (ADVANCED_FILTERS.find? (fun f => f.name == p.1)).map
        (fun f => .param p.1 p.2 f.unit))

/-- `handleBasicFilterToggle` from FilterPanel.tsx: remove the name if
present, else append it. -/
def handleBasicFilterToggle (af : AppliedFilters) (filterName : String) : AppliedFilters :=
  if af.basic.contains filterName then
    { af with basic := af.basic.filter (fun f => !(f == filterName)) }
  else
    { af with basic := af.basic ++ [filterName] }

/-- JS object spread-with-assignment `{...adv, [k]: v}`: an existing key
keeps its position with the new value, a new key is appended. -/
def setKey (adv : List (String × ℚ)) (k : String) (v : ℚ) : List (String × ℚ) :=
  if adv.any (fun p => p.1 == k) then
    adv.map (fun p => if p.1 == k then (p.1, v) else p)
  else
    adv ++ [(k, v)]

/-- `handleAdvancedFilterChange` from FilterPanel.tsx: stores the incoming
value under the filter name, with no further processing. -/
def handleAdvancedFilterChange (af : AppliedFilters) (filterName : String) (value : ℚ) :
    AppliedFilters :=
  { af with advanced := setKey af.advanced filterName value }

/-- JS `a || b` on an optionally-present number: `0` (and absence) is falsy. -/
def jsNumOr (a : Option ℚ) (b : ℚ) : ℚ :=
  match a with
  | some v => if v = 0 then b else v
  | none => b

/-- The value FilterPanel.tsx shows and feeds the range slider for an
advanced filter: `appliedFilters.advanced[filter.name] || filter.defaultValue`. -/
def panelSliderValue (af : AppliedFilters) (f : AdvancedFilter) : ℚ :=
  jsNumOr (af.advanced.lookup f.name) f.defaultValue

/-- Modelled from the spec: the clamping function the specification says is
applied to advanced filter values ("value outside [min,max] → clamp
silently"); stated here only to compare against the code's behaviour. -/
def specClamp (lo hi v : ℚ) : ℚ := min hi (max lo v)

/-! ## Data model: stickers, photos, layouts (src/types) -/

/-- `Sticker` from src/types/photo. -/
structure Sticker where
  id : String
  src : String
  name : String
  x : ℚ
  y : ℚ
  width : ℚ
  height : ℚ
  rotation : ℚ
  zIndex : ℚ
deriving DecidableEq, Repr

/-- `Photo` from src/types/photo, restricted to the fields the compositor
reads.  An absent `originalSrc` and the empty string are both falsy in the
JS `||` chains, so the empty string models a missing source. -/
structure Photo where
  id : String
  originalSrc : String
  processedSrc : String
deriving DecidableEq, Repr

/-- The `layout` field of a `FrameLayout` in PhotoCanvas.tsx. -/
inductive LayoutKind where
  | horizontal
  | vertical
  | grid
deriving DecidableEq, Repr

/-- `FrameLayout` from PhotoCanvas.tsx (fields the render reads). -/
structure FrameLayout where
  id : String
  name : String
  photoCount : ℕ
  layout : LayoutKind
deriving DecidableEq, Repr

/-! ## Canvas 2D context model

The context is a record of the current drawing style (transform, fill style,
font, text alignment, filter), a save/restore stack of styles, and the list
of draw commands issued so far (the pixels).  The transform is kept
symbolically as the sequence of applied `translate`/`rotate` operations:
two equal sequences denote equal affine matrices. -/

/-- One applied canvas transform operation (`rotate` keeps the JS argument,
degrees times pi over 180, symbolically as the degree value). -/
inductive TOp where
  | translate (x y : ℚ)
  | rotate (deg : ℚ)
deriving DecidableEq, Repr

/-- A canvas `fillStyle`: a CSS color string or a linear gradient. -/
inductive FillStyle where
  | color (css : String)
  | linearGradient (x0 y0 x1 y1 : ℚ) (stops : List (ℚ × String))
deriving DecidableEq, Repr

/-- The drawing-state part of a 2D context, saved and restored as a unit by
`save`/`restore`.  Defaults are the canvas defaults; in particular `filter`
defaults to `none` (the empty chunk list) and `drawStripToCanvas` never
assigns it. -/
structure CtxStyle where
  transform : List TOp := []
  fillStyle : FillStyle := .color "#000000"
  font : String := "10px sans-serif"
  textAlign : String := "start"
  filter : List FilterChunk := []
deriving DecidableEq, Repr

/-- One pixel-producing command, recording the style in force when issued. -/
inductive DrawCmd where
  | fillRect (st : CtxStyle) (x y w h : ℚ)
  | drawImageRect (st : CtxStyle) (src : String) (dx dy dw dh : ℚ)
  | drawImageCropped (st : CtxStyle) (src : String) (sx sy sw sh dx dy dw dh : ℚ)
  | fillText (st : CtxStyle) (text : String) (x y : ℚ)
deriving DecidableEq, Repr

/-- A 2D canvas context: current style, the save/restore stack, and the
trace of issued draw commands. -/
structure Ctx where
  style : CtxStyle := {}
  stack : List CtxStyle := []
  draws : List DrawCmd := []
deriving DecidableEq, Repr

namespace Ctx

/-- `ctx.save()`. -/
def save (c : Ctx) : Ctx := { c with stack := c.style :: c.stack }

/-- `ctx.restore()` (no-op on an empty stack, per the canvas spec). -/
def restore (c : Ctx) : Ctx :=
  match c.stack with
  | [] => c
  | st :: rest => { c with style := st, stack := rest }

/-- `ctx.translate(x, y)`. -/
def translate (c : Ctx) (x y : ℚ) : Ctx :=
  { c with style := { c.style with transform := c.style.transform ++ [.translate x y] } }

/-- `ctx.rotate(deg * PI / 180)`, recorded by its degree argument. -/
def rotate (c : Ctx) (deg : ℚ) : Ctx :=
  { c with style := { c.style with transform := c.style.transform ++ [.rotate deg] } }

/-- `ctx.fillStyle = fs`. -/
def setFillStyle (c : Ctx) (fs : FillStyle) : Ctx :=
  { c with style := { c.style with fillStyle := fs } }

/-- `ctx.font = f`. -/
def setFont (c : Ctx) (f : String) : Ctx :=
  { c with style := { c.style with font := f } }

/-- `ctx.textAlign = a`. -/
def setTextAlign (c : Ctx) (a : String) : Ctx :=
  { c with style := { c.style with textAlign := a } }

/-- `ctx.fillRect(x, y, w, h)`. -/
def fillRect (c : Ctx) (x y w h : ℚ) : Ctx :=
  { c with draws := c.draws ++ [.fillRect c.style x y w h] }

/-- `ctx.drawImage(img, dx, dy, dw, dh)`. -/
def drawImageRect (c : Ctx) (src : String) (dx dy dw dh : ℚ) : Ctx :=
  { c with draws := c.draws ++ [.drawImageRect c.style src dx dy dw dh] }

/-- `ctx.drawImage(img, sx, sy, sw, sh, dx, dy, dw, dh)`. -/
def drawImageCropped (c : Ctx) (src : String) (sx sy sw sh dx dy dw dh : ℚ) : Ctx :=
  { c with draws := c.draws ++ [.drawImageCropped c.style src sx sy sw sh dx dy dw dh] }

/-- `ctx.fillText(text, x, y)`. -/
def fillText (c : Ctx) (text : String) (x y : ℚ) : Ctx :=
  { c with draws := c.draws ++ [.fillText c.style text x y] }

end Ctx

/-- The image sources of the image-drawing commands in a trace, in order. -/
def imageDrawSrcs (draws : List DrawCmd) : List String :=
  draws.filterMap fun cmd =>
    match cmd with
    | .drawImageRect _ src _ _ _ _ => some src
    | .drawImageCropped _ src _ _ _ _ _ _ _ _ => some src
    | _ => none

/-- The recorded context filter of each image-drawing command in a trace. -/
def imageDrawFilters (draws : List DrawCmd) : List (List FilterChunk) :=
  draws.filterMap fun cmd =>
    match cmd with
    | .drawImageRect st _ _ _ _ _ => some st.filter
    | .drawImageCropped st _ _ _ _ _ _ _ _ _ => some st.filter
    | _ => none


/-! ## drawStripToCanvas (PhotoCanvas.tsx, export path) -/

/-- The environment of one `drawStripToCanvas` call: whether the export
canvas and its 2D context are available, which image sources decode
successfully, the decoded natural sizes, and the formatted current date and
time that `new Date().toLocaleDateString()/.toLocaleTimeString()` return. -/
structure StripEnv where
  canvasOk : Bool
  loadOk : String → Bool
  imgW : String → ℚ
  imgH : String → ℚ
  nowDate : String
  nowTime : String

/-- JS `a || b` over optionally-present strings: `undefined` and the empty
string are falsy. -/
def jsStrOr (a b : Option String) : Option String :=
  match a with
  | some s => if s = "" then b else some s
  | none => b

/-- JS `a || b` on an optionally-present count (`selectedLayout?.photoCount
|| 3`): `undefined` and `0` are falsy. -/
def jsCountOr (a : Option ℕ) (b : ℕ) : ℕ :=
  match a with
  | some n => if n = 0 then b else n
  | none => b

/-- `Math.round` (round half toward positive infinity). -/
def jsRound (q : ℚ) : ℤ := ⌊q + 1/2⌋

/-- Slot source resolution in the photo loop of `drawStripToCanvas`:
`photo[i]?.originalSrc || photo[0]?.originalSrc || primaryPhoto?.originalSrc`
(with `primaryPhoto = photos[0]`, so the last two alternatives coincide;
the non-array `photo` prop corresponds to the singleton list). -/
def resolveSlotSrc (photos : List Photo) (i : ℕ) : Option String :=
  jsStrOr (photos[i]?.map Photo.originalSrc)
    (jsStrOr (photos[0]?.map Photo.originalSrc)
      (photos[0]?.map Photo.originalSrc))

/-- Canvas size computation of `drawStripToCanvas` (lines 514-530): single
portrait is 200 by 100, horizontal 420 by 200, grid 320 by 320, and the
vertical strip is 480 wide with height
`topMargin + round(420 * 9 / 13) * photoCount + (photoCount - 1) + 350`. -/
def stripCanvasSize (photoCount : ℕ) (layout : LayoutKind) : ℚ × ℚ :=
  if photoCount = 1 then (200, 100)
  else if layout = .horizontal then (420, 200)
  else if layout = .grid then (320, 320)
  else
    let boxWidth : ℚ := 420
    let boxHeight : ℚ := ((jsRound (boxWidth * 9 / 13) : ℤ) : ℚ)
    let topMargin : ℚ := 40
    (480, topMargin + boxHeight * (photoCount : ℚ) + ((photoCount : ℚ) - 1) + 350)

/-- Background fill style of `drawStripToCanvas` (lines 533-544): grid gets
a flat gray, horizontal a white-to-gray gradient, vertical the selected
strip color; the final `else` branch of the source is unreachable for the
three-valued layout type but kept for faithfulness. -/
def stripBackground (layout : LayoutKind) (stripColor : String) (w h : ℚ) : FillStyle :=
  if layout = .grid then .color "#f8f9fa"
  else if layout = .horizontal then
    .linearGradient 0 0 w h [(0, "#ffffff"), (1, "#f8f9fa")]
  else if layout = .vertical then .color stripColor
  else .color "#ffffff"

/-- The centered 3:2 crop window computed in the vertical branch of the
photo loop (lines 571-584): source rectangle `(sx, sy, sWidth, sHeight)`. -/
def cropWindow (imgWidth imgHeight : ℚ) : ℚ × ℚ × ℚ × ℚ :=
  let targetAspect : ℚ := 3 / 2
  let imgAspect := imgWidth / imgHeight
  if imgAspect > targetAspect then
    let sHeight := imgHeight
    let sWidth := imgHeight * targetAspect
    ((imgWidth - sWidth) / 2, 0, sWidth, sHeight)
  else
    let sWidth := imgWidth
    let sHeight := imgWidth / targetAspect
    (0, (imgHeight - sHeight) / 2, sWidth, sHeight)

/-- One iteration of the photo loop of `drawStripToCanvas` (lines 555-619):
resolve the slot source (skip the slot when falsy), await the image (a load
failure is caught and the slot skipped), then fill the slot box white and
draw the image per layout branch.  The branch order (`vertical`, `grid`,
`horizontal`, `photoCount === 1`) mirrors the source; the last branch is
dead for the three-valued layout type. -/
def drawSlot (env : StripEnv) (layout : LayoutKind) (photoCount : ℕ)
    (canvasWidth canvasHeight : ℚ) (photos : List Photo) (c : Ctx) (i : ℕ) : Ctx :=
  match resolveSlotSrc photos i with
  | none => c
  | some src =>
    if src = "" then c
    else if env.loadOk src then
      if layout = .vertical then
        let boxWidth : ℚ := 420
        let boxHeight : ℚ := ((jsRound (boxWidth * 2 / 3) : ℤ) : ℚ)
        let spacing : ℚ := 17
        let topMargin : ℚ := 40
        let x := (canvasWidth - boxWidth) / 2
        let y := topMargin + (i : ℚ) * (boxHeight + spacing)
        match cropWindow (env.imgW src) (env.imgH src) with
        | (sx, sy, sWidth, sHeight) =>
          ((c.setFillStyle (.color "#fff")).fillRect x y boxWidth boxHeight).drawImageCropped
            src sx sy sWidth sHeight x y boxWidth boxHeight
      else if layout = .grid then
        let col : ℕ := i % 2
        let row : ℕ := i / 2
        let x : ℚ := 16 + (col : ℚ) * 160
        let y : ℚ := 16 + (row : ℚ) * 160
        ((c.setFillStyle (.color "#fff")).fillRect x y 128 128).drawImageRect src x y 128 128
      else if layout = .horizontal then
        let photoWidth := (canvasWidth - 16) / (photoCount : ℚ)
        let x := 8 + (i : ℚ) * photoWidth
        let y : ℚ := 8
        let w := photoWidth - 4
        let h := canvasHeight - 40
        ((c.setFillStyle (.color "#fff")).fillRect x y w h).drawImageRect src x y w h
      else if photoCount = 1 then
        let x : ℚ := 12
        let y : ℚ := 12
        let w := canvasWidth - 24
        let h : ℚ := 400
        ((c.setFillStyle (.color "#fff")).fillRect x y w h).drawImageRect src x y w h
      else c
    else c

/-- One iteration of the sticker loop of `drawStripToCanvas` (lines
620-631): await the sticker image (a load failure is caught with the
context untouched), then `save`, translate to the sticker center, rotate,
draw the image centered, `restore`. -/
def drawStickerOp (env : StripEnv) (c : Ctx) (s : Sticker) : Ctx :=
  if env.loadOk s.src then
    ((((c.save.translate (s.x + s.width / 2) (s.y + s.height / 2)).rotate
        s.rotation).drawImageRect s.src (-(s.width / 2)) (-(s.height / 2))
        s.width s.height)).restore
  else c

/-- The result of a successful `drawStripToCanvas` call: the export canvas
dimensions and the final context (whose draw trace is the bitmap). -/
structure StripResult where
  width : ℚ
  height : ℚ
  ctx : Ctx
deriving DecidableEq, Repr

/-- `drawStripToCanvas` (lines 507-638): returns `none` when the export
canvas or its context is unavailable; otherwise sizes the canvas from
`selectedLayout?.photoCount || 3` and `selectedLayout?.layout || 'vertical'`,
fills the background, draws each photo slot, draws the stickers in list
order, and draws the footer caption built from the current date and time. -/
def drawStripToCanvas (env : StripEnv) (layoutOpt : Option FrameLayout)
    (photos : List Photo) (stickers : List Sticker) (stripColor : String) :
    Option StripResult :=
  if env.canvasOk then
    let photoCount := jsCountOr (layoutOpt.map FrameLayout.photoCount) 3
    let layout := (layoutOpt.map FrameLayout.layout).getD .vertical
    let size := stripCanvasSize photoCount layout
    let canvasWidth := size.1
    let canvasHeight := size.2
    let c : Ctx := {}
    let c := c.setFillStyle (stripBackground layout stripColor canvasWidth canvasHeight)
    let c := c.fillRect 0 0 canvasWidth canvasHeight
    let c := (List.range photoCount).foldl
      (drawSlot env layout photoCount canvasWidth canvasHeight photos) c
    let c := stickers.foldl (drawStickerOp env) c
    let c := c.setFillStyle (.color "#6b7280")
    let c := c.setFont "17px Arial"
    let c := c.setTextAlign "center"
    let footerText := "Adelaide - " ++ env.nowDate ++ ", " ++ env.nowTime
    let c := c.fillText footerText (canvasWidth / 2) (canvasHeight - 73)
    some ⟨canvasWidth, canvasHeight, c⟩
  else none

/-- Stable insertion of a sticker into a list sorted ascending by `zIndex`. -/
def insertByZ (s : Sticker) : List Sticker → List Sticker
  | [] => [s]
  | t :: ts => if s.zIndex ≤ t.zIndex then s :: t :: ts else t :: insertByZ s ts

/-- The sticker draw order of `ImageProcessor.addStickers`
(imageProcessor.ts line 70): `[...stickers].sort((a, b) => a.zIndex -
b.zIndex)`, a stable ascending sort by `zIndex`. -/
def addStickersDrawOrder (stickers : List Sticker) : List Sticker :=
  stickers.foldr insertByZ []

/-- The text argument of the last draw command when it is a `fillText` (the
footer caption of a render). -/
def footerTextOf (r : Option StripResult) : Option String :=
  r.bind fun res =>
    match res.ctx.draws.getLast? with
    | some (.fillText _ t _ _) => some t
    | _ => none

/-- Forget the final draw command (the footer caption) of a render result. -/
def stripDropFooter (r : StripResult) : StripResult :=
  { r with ctx := { r.ctx with draws := r.ctx.draws.dropLast } }

/-! ## Helper lemmas -/

theorem lookup_append_single (adv : List (String × ℚ)) (k : String) (v : ℚ)
    (h : ∀ p ∈ adv, p.1 ≠ k) : (adv ++ [(k, v)]).lookup k = some v := by
  induction adv with
  | nil => simp
  | cons p t ih =>
    obtain ⟨pk, pv⟩ := p
    have hp : k ≠ pk := fun hk => h (pk, pv) (by simp) hk.symm
    simp only [List.cons_append, List.lookup_cons, beq_false_of_ne hp]
    exact ih fun q hq => h q (by simp [hq])

theorem lookup_map_overwrite (adv : List (String × ℚ)) (k : String) (v : ℚ)
    (h : adv.any (fun p => p.1 == k) = true) :
    (adv.map (fun p => if p.1 == k then (p.1, v) else p)).lookup k = some v := by
  induction adv with
  | nil => simp at h
  | cons p t ih =>
    obtain ⟨pk, pv⟩ := p
    by_cases hp : pk = k
    · subst hp
      rw [List.map_cons, if_pos (by simp : (pk == pk) = true)]
      simp [List.lookup_cons]
    · have ht : t.any (fun p => p.1 == k) = true := by
        simpa [beq_false_of_ne hp] using h
      have hkp : k ≠ pk := fun hk => hp hk.symm
      rw [List.map_cons, if_neg (by simp [hp])]
      simp only [List.lookup_cons, beq_false_of_ne hkp]
      exact ih ht

theorem setKey_lookup (adv : List (String × ℚ)) (k : String) (v : ℚ) :
    (setKey adv k v).lookup k = some v := by
  unfold setKey
  by_cases h : adv.any (fun p => p.1 == k) = true
  · rw [if_pos h]
    exact lookup_map_overwrite adv k v h
  · rw [if_neg h]
    refine lookup_append_single adv k v fun p hp hk => h ?_
    simp only [List.any_eq_true]
    exact ⟨p, hp, by simp [hk]⟩

theorem lookup_mem (l : List (String × ℚ)) (k : String) (v : ℚ)
    (h : l.lookup k = some v) : (k, v) ∈ l := by
  induction l with
  | nil => simp at h
  | cons p t ih =>
    obtain ⟨pk, pv⟩ := p
    by_cases hk : k = pk
    · subst hk
      simp only [List.lookup_cons_self] at h
      injection h with h
      simp [← h]
    · simp only [List.lookup_cons, beq_false_of_ne hk] at h
      simp [ih h]

theorem advancedPreviewChunk_cases (p : String × ℚ) (c : FilterChunk)
    (h : advancedPreviewChunk p = some c) :
    ∃ u, c = .param p.1 p.2 u ∧
      (p.1 = "brightness" ∨ p.1 = "contrast" ∨ p.1 = "saturate" ∨ p.1 = "blur") := by
  obtain ⟨pk, pv⟩ := p
  by_cases h1 : pk = "brightness"
  · subst h1
    simp only [advancedPreviewChunk] at h
    injection h with h
    exact ⟨"%", h.symm, Or.inl rfl⟩
  · by_cases h2 : pk = "contrast"
    · subst h2
      simp only [advancedPreviewChunk] at h
      injection h with h
      exact ⟨"%", h.symm, Or.inr (Or.inl rfl)⟩
    · by_cases h3 : pk = "saturate"
      · subst h3
        simp only [advancedPreviewChunk] at h
        injection h with h
        exact ⟨"%", h.symm, Or.inr (Or.inr (Or.inl rfl))⟩
      · by_cases h4 : pk = "blur"
        · subst h4
          simp only [advancedPreviewChunk] at h
          injection h with h
          exact ⟨"px", h.symm, Or.inr (Or.inr (Or.inr rfl))⟩
        · exfalso
          unfold advancedPreviewChunk at h
          split at h
          · simp_all
          · simp_all
          · simp_all
          · simp_all
          · simp at h

theorem resolveSlotSrc_falsy_of_no_srcs (photos : List Photo)
    (hsrc : ∀ p ∈ photos, p.originalSrc = "") (i : ℕ) :
    resolveSlotSrc photos i = none ∨ resolveSlotSrc photos i = some "" := by
  unfold resolveSlotSrc
  have h0 : ∀ j : ℕ, photos[j]?.map Photo.originalSrc = none ∨
      photos[j]?.map Photo.originalSrc = some "" := by
    intro j
    cases hj : photos[j]? with
    | none => exact Or.inl rfl
    | some p =>
      refine Or.inr ?_
      have hmem : p ∈ photos := by
        obtain ⟨hlt, rfl⟩ := List.getElem?_eq_some.mp hj
        exact List.getElem_mem hlt
      simp [hsrc p hmem]
  rcases h0 i with hi | hi <;> rcases h0 0 with h00 | h00 <;>
    simp [hi, h00, jsStrOr]

theorem foldl_drawSlot_skip (env : StripEnv) (layout : LayoutKind) (pc : ℕ)
    (w h : ℚ) (photos : List Photo)
    (hfalsy : ∀ i, resolveSlotSrc photos i = none ∨ resolveSlotSrc photos i = some "")
    (l : List ℕ) (c : Ctx) :
    List.foldl (drawSlot env layout pc w h photos) c l = c := by
  induction l generalizing c with
  | nil => rfl
  | cons i t ih =>
    rw [List.foldl_cons]
    have hstep : drawSlot env layout pc w h photos c i = c := by
      unfold drawSlot
      rcases hfalsy i with hi | hi <;> rw [hi]
      simp
    rw [hstep]
    exact ih c

/-! ## Claim theorems -/

/-- Claim C1: the claim states that the export render draws each photo slot
with the Filter Engine's transform for the current `AppliedFilters` applied,
matching the preview's `getImageStyle`.  The code does the opposite:
`drawStripToCanvas` never reads `appliedFilters` (it appears only in the
`useCallback` dependency list) and never assigns `ctx.filter`, so every slot
is drawn with the context's default filter (`none`), while the preview styles
the same photos with the `getImageStyle` string.  This theorem evaluates the
export render for a grid layout with `grayscale` toggled: all four slot draws
carry the empty (default) filter, while the preview filter string is
`grayscale(100%)`, which is not the empty filter. -/
theorem C1_export_ignores_filters :
    (drawStripToCanvas ⟨true, fun _ => true, fun _ => 1200, fun _ => 800, "1/1/2025",
        "10:00:00"⟩ (some ⟨"grid", "Grid", 4, .grid⟩) [⟨"p1", "photo1.png", ""⟩] []
        "#ffffff").map (fun r => imageDrawFilters r.ctx.draws) = some [[], [], [], []] ∧
    getImageStyle ⟨["grayscale"], []⟩ = [.lit "grayscale(100%)"] ∧
    ([FilterChunk.lit "grayscale(100%)"] : List FilterChunk) ≠ [] :=
  ⟨by decide, by decide, by decide⟩

/-- Claim C2: the claim states that the render draws stickers in ascending
z-index order regardless of array position.  The export render
(`drawStripToCanvas`) iterates the sticker array in input order without
sorting: for stickers with z-indices `[3, 1, 2]` it draws them in array
order `a, b, c`, not in the ascending-z order `b, c, a` that the claim
requires — the order that `ImageProcessor.addStickers` (which does sort by
z-index before drawing) produces on the same list. -/
theorem C2_export_sticker_order_is_array_order :
    (drawStripToCanvas ⟨true, fun _ => true, fun _ => 100, fun _ => 100, "1/1/2025",
        "10:00:00"⟩ none []
        [⟨"a", "a.png", "A", 0, 0, 10, 10, 0, 3⟩,
         ⟨"b", "b.png", "B", 0, 0, 10, 10, 0, 1⟩,
         ⟨"c", "c.png", "C", 0, 0, 10, 10, 0, 2⟩] "#ffffff").map
      (fun r => imageDrawSrcs r.ctx.draws) = some ["a.png", "b.png", "c.png"] ∧
    (["a.png", "b.png", "c.png"] : List String) ≠ ["b.png", "c.png", "a.png"] ∧
    (addStickersDrawOrder
        [⟨"a", "a.png", "A", 0, 0, 10, 10, 0, 3⟩,
         ⟨"b", "b.png", "B", 0, 0, 10, 10, 0, 1⟩,
         ⟨"c", "c.png", "C", 0, 0, 10, 10, 0, 2⟩]).map Sticker.src =
      ["b.png", "c.png", "a.png"] :=
  ⟨by decide, by decide, by decide⟩

/-- Claim C3 (counterexample): the claim states that a requested advanced
filter value is stored and used clamped to the declared `[min, max]`, so
setting `blur` (declared bounds `[0, 10]`) to `60 = max + 50` should store
exactly `10`.  In the code `handleAdvancedFilterChange` stores `60`
unchanged, and both filter-string builders emit `blur(60px)`. -/
theorem C3_unclamped_counterexample :
    (handleAdvancedFilterChange ⟨[], []⟩ "blur" 60).advanced.lookup "blur" = some 60 ∧
    (ADVANCED_FILTERS.find? (fun f => f.name == "blur")).map (fun f => (f.min, f.max)) =
      some (0, 10) ∧
    specClamp 0 10 60 = 10 ∧
    (handleAdvancedFilterChange ⟨[], []⟩ "blur" 60).advanced.lookup "blur" ≠
      some (specClamp 0 10 60) ∧
    applyFiltersChunks (handleAdvancedFilterChange ⟨[], []⟩ "blur" 60) =
      [.param "blur" 60 "px"] ∧
    getImageStyle (handleAdvancedFilterChange ⟨[], []⟩ "blur" 60) =
      [.param "blur" 60 "px"] := by
  have hclamp : specClamp 0 10 60 = 10 := by norm_num [specClamp]
  refine ⟨by decide, by decide, hclamp, ?_, by decide, by decide⟩
  rw [hclamp]
  decide

/-- Claim C3 (amended): `handleAdvancedFilterChange` stores the requested
value under the filter name unchanged — no clamping is performed by any
filter mutation, and the transform builders use the stored raw value; the
declared `[min, max]` bounds reach only the range input's attributes. -/
theorem C3_advanced_value_stored_raw (af : AppliedFilters) (k : String) (v : ℚ) :
    ((handleAdvancedFilterChange af k v).advanced).lookup k = some v :=
  setKey_lookup af.advanced k v

/-- Claim C4 (counterexample): the claim states the computed filter transform
is independent of toggle order (fixed canonical order).  Both `getImageStyle`
and `ImageProcessor.applyFilters` iterate `appliedFilters.basic` in toggle
order, so toggling `sepia` then `grayscale` yields the chain
`sepia(100%) grayscale(100%)` while the reverse toggle order yields
`grayscale(100%) sepia(100%)` — different transforms. -/
theorem C4_toggle_order_counterexample :
    getImageStyle (handleBasicFilterToggle (handleBasicFilterToggle ⟨[], []⟩ "sepia")
        "grayscale") = [.lit "sepia(100%)", .lit "grayscale(100%)"] ∧
    getImageStyle (handleBasicFilterToggle (handleBasicFilterToggle ⟨[], []⟩ "grayscale")
        "sepia") = [.lit "grayscale(100%)", .lit "sepia(100%)"] ∧
    getImageStyle (handleBasicFilterToggle (handleBasicFilterToggle ⟨[], []⟩ "sepia")
        "grayscale") ≠
      getImageStyle (handleBasicFilterToggle (handleBasicFilterToggle ⟨[], []⟩ "grayscale")
        "sepia") ∧
    applyFiltersChunks (handleBasicFilterToggle (handleBasicFilterToggle ⟨[], []⟩ "sepia")
        "grayscale") ≠
      applyFiltersChunks (handleBasicFilterToggle (handleBasicFilterToggle ⟨[], []⟩
        "grayscale") "sepia") :=
  ⟨by decide, by decide, by decide, by decide⟩

/-- Claim C4 (amended): the computed filter transform applies basic filters
in the order the user toggled them (the array order of
`appliedFilters.basic`), not in a canonical order: toggling two distinct
recognized filters in either order yields the two chunks in exactly that
toggle order. -/
theorem C4_toggle_order_determines_transform (a b ca cb : String)
    (ha : basicFilterCss a = some ca) (hb : basicFilterCss b = some cb) (hab : a ≠ b) :
    getImageStyle (handleBasicFilterToggle (handleBasicFilterToggle ⟨[], []⟩ a) b) =
      [.lit ca, .lit cb] ∧
    getImageStyle (handleBasicFilterToggle (handleBasicFilterToggle ⟨[], []⟩ b) a) =
      [.lit cb, .lit ca] := by
  have h1 : handleBasicFilterToggle ⟨[], []⟩ a = ⟨[a], []⟩ := by
    simp [handleBasicFilterToggle]
  have h2 : handleBasicFilterToggle ⟨[a], []⟩ b = ⟨[a, b], []⟩ := by
    simp [handleBasicFilterToggle, List.contains, hab, Ne.symm hab]
  have h1b : handleBasicFilterToggle ⟨[], []⟩ b = ⟨[b], []⟩ := by
    simp [handleBasicFilterToggle]
  have h2b : handleBasicFilterToggle ⟨[b], []⟩ a = ⟨[b, a], []⟩ := by
    simp [handleBasicFilterToggle, List.contains, hab, Ne.symm hab]
  rw [h1, h2, h1b, h2b]
  constructor
  · simp [getImageStyle, ha, hb]
  · simp [getImageStyle, ha, hb]

/-- Claim C4 (witness): the amended order statement evaluated at the toggles
`sepia` and `grayscale`. -/
theorem C4_toggle_order_witness :
    getImageStyle (handleBasicFilterToggle (handleBasicFilterToggle ⟨[], []⟩ "sepia")
        "grayscale") = [.lit "sepia(100%)", .lit "grayscale(100%)"] ∧
    getImageStyle (handleBasicFilterToggle (handleBasicFilterToggle ⟨[], []⟩ "grayscale")
        "sepia") = [.lit "grayscale(100%)", .lit "sepia(100%)"] :=
  C4_toggle_order_determines_transform "sepia" "grayscale" "sepia(100%)" "grayscale(100%)"
    rfl rfl (by decide)

/-- Claim C5 (counterexample): the claim states that two invocations of the
strip render on the same composition produce pixel-identical output.  The
footer caption embeds the current date and time, so two invocations at
different clock readings produce different bitmaps: here the two renders of
the same empty composition differ because their footers read different
dates. -/
theorem C5_time_dependence_counterexample :
    footerTextOf (drawStripToCanvas ⟨true, fun _ => true, fun _ => 100, fun _ => 100,
        "1/1/2025", "10:00:00"⟩ none [] [] "#ffffff") =
      some "Adelaide - 1/1/2025, 10:00:00" ∧
    footerTextOf (drawStripToCanvas ⟨true, fun _ => true, fun _ => 100, fun _ => 100,
        "1/2/2025", "10:00:00"⟩ none [] [] "#ffffff") =
      some "Adelaide - 1/2/2025, 10:00:00" ∧
    drawStripToCanvas ⟨true, fun _ => true, fun _ => 100, fun _ => 100, "1/1/2025",
        "10:00:00"⟩ none [] [] "#ffffff" ≠
      drawStripToCanvas ⟨true, fun _ => true, fun _ => 100, fun _ => 100, "1/2/2025",
        "10:00:00"⟩ none [] [] "#ffffff" := by
  refine ⟨by decide, by decide, fun h => ?_⟩
  exact absurd (congrArg footerTextOf h) (by decide)

/-- Claim C5 (amended): for a fixed layout, photo list, sticker list and
strip color, the render is a pure function of the inputs and of the formatted
current date and time, and the clock reading affects only the final footer
text command: dropping the footer, two renders at different clock readings
are identical, and two renders at the same formatted date and time are
identical outright. -/
theorem C5_deterministic_mod_footer (ok : Bool) (lo : String → Bool)
    (iw ih : String → ℚ) (d1 t1 d2 t2 : String) (layoutOpt : Option FrameLayout)
    (photos : List Photo) (stickers : List Sticker) (color : String) :
    ((drawStripToCanvas ⟨ok, lo, iw, ih, d1, t1⟩ layoutOpt photos stickers color).map
        stripDropFooter =
      (drawStripToCanvas ⟨ok, lo, iw, ih, d2, t2⟩ layoutOpt photos stickers color).map
        stripDropFooter) ∧
    (d1 = d2 → t1 = t2 →
      drawStripToCanvas ⟨ok, lo, iw, ih, d1, t1⟩ layoutOpt photos stickers color =
        drawStripToCanvas ⟨ok, lo, iw, ih, d2, t2⟩ layoutOpt photos stickers color) := by
  constructor
  · cases ok with
    | false => rfl
    | true =>
      have hslot : drawSlot ⟨true, lo, iw, ih, d1, t1⟩ = drawSlot ⟨true, lo, iw, ih, d2, t2⟩ :=
        rfl
      have hstick : drawStickerOp ⟨true, lo, iw, ih, d1, t1⟩ =
          drawStickerOp ⟨true, lo, iw, ih, d2, t2⟩ := rfl
      simp only [drawStripToCanvas, Option.map_some', stripDropFooter, Ctx.fillText,
        List.dropLast_concat, hslot, hstick, if_pos]
  · intro hd ht
    subst hd ht
    rfl

/-- Claim C5 (witness): the amended statement evaluated at a concrete
composition — two renders whose clock readings differ agree after dropping
the footer, and two renders at the same clock reading agree outright. -/
theorem C5_deterministic_witness :
    (drawStripToCanvas ⟨true, fun _ => true, fun _ => 100, fun _ => 100, "1/1/2025",
        "10:00:00"⟩ none [] [] "#ffffff").map stripDropFooter =
      (drawStripToCanvas ⟨true, fun _ => true, fun _ => 100, fun _ => 100, "1/2/2025",
        "11:00:00"⟩ none [] [] "#ffffff").map stripDropFooter ∧
    drawStripToCanvas ⟨true, fun _ => true, fun _ => 100, fun _ => 100, "1/1/2025",
        "10:00:00"⟩ none [] [] "#ffffff" =
      drawStripToCanvas ⟨true, fun _ => true, fun _ => 100, fun _ => 100, "1/1/2025",
        "10:00:00"⟩ none [] [] "#ffffff" :=
  ⟨(C5_deterministic_mod_footer true (fun _ => true) (fun _ => 100) (fun _ => 100)
      "1/1/2025" "10:00:00" "1/2/2025" "11:00:00" none [] [] "#ffffff").1,
   (C5_deterministic_mod_footer true (fun _ => true) (fun _ => 100) (fun _ => 100)
      "1/1/2025" "10:00:00" "1/1/2025" "10:00:00" none [] [] "#ffffff").2 rfl rfl⟩

/-- Claim C6: for the vertical layout and every source image of positive
width and height whose aspect ratio differs from 3:2, the crop window
`(sx, sy, sWidth, sHeight)` computed by the vertical branch of
`drawStripToCanvas` has aspect ratio exactly 3:2 and is centered: when the
source is wider than 3:2 the full height is kept (`sy = 0`) and the
horizontal trim is split equally (`sx = (width - sWidth) / 2`); otherwise the
full width is kept (`sx = 0`) and the vertical trim is split equally
(`sy = (height - sHeight) / 2`). -/
theorem C6_cropWindow_spec (w h sx sy sw sh : ℚ) (hw : 0 < w) (hh : 0 < h)
    (_hne : w / h ≠ 3 / 2) (hcw : cropWindow w h = (sx, sy, sw, sh)) :
    sw / sh = 3 / 2 ∧
    (3 / 2 < w / h → sy = 0 ∧ sx = (w - sw) / 2) ∧
    (w / h < 3 / 2 → sx = 0 ∧ sy = (h - sh) / 2) := by
  simp only [cropWindow] at hcw
  split_ifs at hcw with hgt
  · rw [Prod.mk.injEq, Prod.mk.injEq, Prod.mk.injEq] at hcw
    obtain ⟨hsx, hsy, hsw, hsh⟩ := hcw
    subst hsx hsy hsw hsh
    refine ⟨?_, fun _ => ⟨rfl, rfl⟩, fun hlt => absurd hgt (by simp [not_lt, hlt.le])⟩
    rw [mul_comm]
    exact mul_div_cancel_right₀ _ hh.ne'
  · rw [Prod.mk.injEq, Prod.mk.injEq, Prod.mk.injEq] at hcw
    obtain ⟨hsx, hsy, hsw, hsh⟩ := hcw
    subst hsx hsy hsw hsh
    refine ⟨?_, fun hgt2 => absurd hgt2 hgt, fun _ => ⟨rfl, rfl⟩⟩
    rw [div_div_eq_mul_div, mul_comm]
    exact mul_div_cancel_right₀ _ hw.ne'

/-- Claim C6 (witness): the crop statement evaluated at a 1920 by 1080
source (aspect 16:9, wider than 3:2): the crop keeps the full height, takes
1620 of the 1920 columns, and trims 150 columns from each side. -/
theorem C6_cropWindow_witness :
    (0:ℚ) < 1920 ∧ (0:ℚ) < 1080 ∧ (1920:ℚ) / 1080 ≠ 3 / 2 ∧
    cropWindow 1920 1080 = (150, 0, 1620, 1080) ∧
    ((1620:ℚ) / 1080 = 3 / 2 ∧
      ((3:ℚ) / 2 < 1920 / 1080 → (0:ℚ) = 0 ∧ (150:ℚ) = (1920 - 1620) / 2) ∧
      ((1920:ℚ) / 1080 < 3 / 2 → (150:ℚ) = 0 ∧ (0:ℚ) = (1080 - 1080) / 2)) := by
  have h1 : (0:ℚ) < 1920 := by norm_num
  have h2 : (0:ℚ) < 1080 := by norm_num
  have h3 : (1920:ℚ) / 1080 ≠ 3 / 2 := by norm_num
  have h4 : cropWindow 1920 1080 = (150, 0, 1620, 1080) := by
    simp only [cropWindow]
    norm_num
  exact ⟨h1, h2, h3, h4, C6_cropWindow_spec 1920 1080 150 0 1620 1080 h1 h2 h3 h4⟩

/-- Claim C7: slot source resolution in `drawStripToCanvas` implements the
filler policy: for a non-empty photo list whose entries all have a source
bitmap, a slot whose index is within the list uses that photo's own source,
and a slot whose index is at or beyond the end of the list falls back to
photo 0's source. -/
theorem C7_filler_policy (photos : List Photo) (p0 : Photo)
    (hp0 : photos[0]? = some p0)
    (hne : ∀ p ∈ photos, p.originalSrc ≠ "") :
    (∀ i p, photos[i]? = some p → resolveSlotSrc photos i = some p.originalSrc) ∧
    (∀ i, photos.length ≤ i → resolveSlotSrc photos i = some p0.originalSrc) := by
  constructor
  · intro i p hip
    have hmem : p ∈ photos := by
      obtain ⟨hlt, rfl⟩ := List.getElem?_eq_some.mp hip
      exact List.getElem_mem hlt
    simp [resolveSlotSrc, hip, jsStrOr, hne p hmem]
  · intro i hi
    have hip : photos[i]? = none := List.getElem?_eq_none hi
    have hmem : p0 ∈ photos := by
      obtain ⟨hlt, rfl⟩ := List.getElem?_eq_some.mp hp0
      exact List.getElem_mem hlt
    simp [resolveSlotSrc, hip, hp0, jsStrOr, hne p0 hmem]

/-- Claim C7 (witness): the filler policy evaluated on a two-photo list —
slot 1 uses its own photo's source and slot 5, beyond the end of the list,
falls back to photo 0's source. -/
theorem C7_filler_witness :
    resolveSlotSrc [⟨"1", "one.png", ""⟩, ⟨"2", "two.png", ""⟩] 1 = some "two.png" ∧
    resolveSlotSrc [⟨"1", "one.png", ""⟩, ⟨"2", "two.png", ""⟩] 5 = some "one.png" := by
  have h := C7_filler_policy [⟨"1", "one.png", ""⟩, ⟨"2", "two.png", ""⟩]
    ⟨"1", "one.png", ""⟩ rfl (by decide)
  exact ⟨h.1 1 ⟨"2", "two.png", ""⟩ rfl, h.2 5 (by decide)⟩

/-- Claim C8 (counterexample): the claim states that with no photos the
render fails fast with a descriptive error and no partial bitmap is returned
as if successful.  Invoked with an empty photo list (and an available
context), `drawStripToCanvas` does not fail: it skips every slot and returns
a background-and-footer bitmap containing no photo draw at all. -/
theorem C8_no_photos_counterexample :
    (drawStripToCanvas ⟨true, fun _ => true, fun _ => 100, fun _ => 100, "1/1/2025",
        "10:00:00"⟩ none [] [] "#ffffff").isSome = true ∧
    (drawStripToCanvas ⟨true, fun _ => true, fun _ => 100, fun _ => 100, "1/1/2025",
        "10:00:00"⟩ none [] [] "#ffffff").map (fun r => imageDrawSrcs r.ctx.draws) =
      some [] :=
  ⟨by decide, by decide⟩

/-- Claim C8 (amended): `drawStripToCanvas` returns null exactly when the
export canvas or its context is unavailable; when the context is available
and no supplied photo has a source bitmap, it silently returns a bitmap with
every photo slot skipped (background and footer only, no image draw) rather
than failing with an error. -/
theorem C8_drawStrip_no_photos (env : StripEnv) (layoutOpt : Option FrameLayout)
    (photos : List Photo) (color : String)
    (hsrc : ∀ p ∈ photos, p.originalSrc = "") :
    (env.canvasOk = false → drawStripToCanvas env layoutOpt photos [] color = none) ∧
    (env.canvasOk = true → ∃ r, drawStripToCanvas env layoutOpt photos [] color = some r ∧
      imageDrawSrcs r.ctx.draws = []) := by
  constructor
  · intro hok
    simp [drawStripToCanvas, hok]
  · intro hok
    rw [drawStripToCanvas.eq_def, hok]
    simp only [if_true]
    refine ⟨_, rfl, ?_⟩
    rw [foldl_drawSlot_skip env _ _ _ _ photos (resolveSlotSrc_falsy_of_no_srcs photos hsrc)]
    simp [imageDrawSrcs, Ctx.setFillStyle, Ctx.fillRect, Ctx.fillText, Ctx.setFont,
      Ctx.setTextAlign, List.foldl_nil]

/-- Claim C8 (witness): the amended statement evaluated concretely — with an
unavailable context the render returns null, and with an available context
and an empty photo list it returns a bitmap containing no image draw. -/
theorem C8_no_photos_witness :
    drawStripToCanvas ⟨false, fun _ => true, fun _ => 100, fun _ => 100, "1/1/2025",
        "10:00:00"⟩ none [] [] "#ffffff" = none ∧
    (drawStripToCanvas ⟨true, fun _ => true, fun _ => 100, fun _ => 100, "1/1/2025",
        "10:00:00"⟩ none [] [] "#ffffff").map (fun r => imageDrawSrcs r.ctx.draws) =
      some [] := by
  refine ⟨(C8_drawStrip_no_photos ⟨false, fun _ => true, fun _ => 100, fun _ => 100,
    "1/1/2025", "10:00:00"⟩ none [] "#ffffff" (by simp)).1 rfl, ?_⟩
  obtain ⟨r, hr, hs⟩ := (C8_drawStrip_no_photos ⟨true, fun _ => true, fun _ => 100,
    fun _ => 100, "1/1/2025", "10:00:00"⟩ none [] "#ffffff" (by simp)).2 rfl
  rw [hr]
  simp [hs]

/-- Claim C9: each sticker draw in `drawStripToCanvas` is a scoped operation:
whether the sticker image load fails (context untouched) or succeeds
(`save`, translate to center, rotate, draw centered, `restore`), the
context's drawing style — transform included — and its save stack are
restored to their pre-draw values, and the only effect is appending draw
commands (pixels). -/
theorem C9_sticker_draw_scoped (env : StripEnv) (c : Ctx) (s : Sticker) :
    (drawStickerOp env c s).style = c.style ∧
    (drawStickerOp env c s).stack = c.stack ∧
    ∃ ds, (drawStickerOp env c s).draws = c.draws ++ ds := by
  unfold drawStickerOp
  by_cases h : env.loadOk s.src
  · rw [if_pos h]
    exact ⟨rfl, rfl, _, rfl⟩
  · rw [if_neg h]
    exact ⟨rfl, rfl, [], (List.append_nil _).symm⟩

/-- Claim C10 (counterexample): the claim states that for every advanced
filter stored at value 0 the panel shows the declared default while the
preview filter string still uses the raw stored 0.  For `hue-rotate` stored
at 0 the preview builder ignores the entry entirely (its `switch` has no
`hue-rotate` case), so the preview string is empty and no function call
carrying the stored 0 appears in it. -/
theorem C10_hue_rotate_counterexample :
    (⟨[], [("hue-rotate", 0)]⟩ : AppliedFilters).advanced.lookup "hue-rotate" = some 0 ∧
    getImageStyle ⟨[], [("hue-rotate", 0)]⟩ = [] ∧
    ¬ ∃ u, FilterChunk.param "hue-rotate" 0 u ∈ getImageStyle ⟨[], [("hue-rotate", 0)]⟩ := by
  refine ⟨by decide, by decide, ?_⟩
  rintro ⟨u, hu⟩
  rw [show getImageStyle ⟨[], [("hue-rotate", 0)]⟩ = [] from by decide] at hu
  exact List.not_mem_nil _ hu

/-- Claim C10 (amended): for every declared advanced filter whose stored
value is exactly 0, the panel's slider position and displayed number equal
the declared default (a stored 0 is indistinguishable from an absent entry
in the panel); the preview filter string built from the same state uses the
raw stored 0 for `brightness`, `contrast`, `saturate` and `blur`, while
`hue-rotate` and `opacity` entries never reach the preview string at all. -/
theorem C10_panel_zero_shows_default (f : AdvancedFilter) (_hf : f ∈ ADVANCED_FILTERS)
    (af : AppliedFilters) (h0 : af.advanced.lookup f.name = some 0) :
    panelSliderValue af f = f.defaultValue ∧
    ((f.name = "brightness" ∨ f.name = "contrast" ∨ f.name = "saturate" ∨ f.name = "blur") →
      ∃ u, FilterChunk.param f.name 0 u ∈ getImageStyle af) ∧
    ((f.name = "hue-rotate" ∨ f.name = "opacity") →
      ∀ q u, FilterChunk.param f.name q u ∉ getImageStyle af) := by
  refine ⟨by simp [panelSliderValue, h0, jsNumOr], ?_, ?_⟩
  · intro hname
    have hmem : (f.name, (0 : ℚ)) ∈ af.advanced := lookup_mem _ _ _ h0
    have hchunk : ∃ u, advancedPreviewChunk (f.name, (0 : ℚ)) =
        some (FilterChunk.param f.name 0 u) := by
      rcases hname with h | h | h | h <;> rw [h]
      · exact ⟨"%", rfl⟩
      · exact ⟨"%", rfl⟩
      · exact ⟨"%", rfl⟩
      · exact ⟨"px", rfl⟩
    obtain ⟨u, hu⟩ := hchunk
    refine ⟨u, ?_⟩
    unfold getImageStyle
    refine List.mem_append_right _ ?_
    exact List.mem_filterMap.mpr ⟨(f.name, 0), hmem, hu⟩
  · intro hname q u hmem
    unfold getImageStyle at hmem
    rcases List.mem_append.mp hmem with hb | ha
    · obtain ⟨n, _, hn⟩ := List.mem_filterMap.mp hb
      obtain ⟨s, _, hs⟩ := Option.map_eq_some'.mp hn
      exact FilterChunk.noConfusion hs
    · obtain ⟨p, _, hp⟩ := List.mem_filterMap.mp ha
      obtain ⟨u2, hc, hnames⟩ := advancedPreviewChunk_cases p _ hp
      have hfn : f.name = p.1 := by injection hc
      rw [← hfn] at hnames
      rcases hname with h | h <;> rcases hnames with h2 | h2 | h2 | h2 <;>
        (rw [h] at h2; exact absurd h2 (by decide))

/-- Claim C10 (witness): the amended statement evaluated at `brightness`
stored at 0 — the panel shows the default 100 while the preview string
contains `brightness(0%)`. -/
theorem C10_panel_zero_witness :
    panelSliderValue ⟨[], [("brightness", 0)]⟩
      ⟨"brightness", 0, 300, 1, 100, "%", "Brightness"⟩ = 100 ∧
    (∃ u, FilterChunk.param "brightness" 0 u ∈ getImageStyle ⟨[], [("brightness", 0)]⟩) := by
  have h := C10_panel_zero_shows_default ⟨"brightness", 0, 300, 1, 100, "%", "Brightness"⟩
    (by decide) ⟨[], [("brightness", 0)]⟩ (by decide)
  exact ⟨h.1, h.2.1 (Or.inl rfl)⟩
